import Mathlib

/-!
Shallow embedding of the evaluation engine of `src/src/ltgp_cac_calculator.rs`:
the pure computation performed inside `main` (lines 187-267) once the five
numbers and the period-unit string have been collected.  The engine's `f64`
values are modelled as exact rationals; the only non-finite value the code can
produce, `f64::INFINITY` for the ratio when `cac == 0` (line 193), is modelled
by `Option ℚ` with `none` standing for `+∞`, and the code's `ratio <= 3.0`
test (line 218), which is false at `+∞`, is translated accordingly.
-/

/-- The validated input record handed to the evaluation: the tuple
`(cac, cfa, ltgp, early_gp, period, low_cac_fraction)` returned by
`maybe_interactive_collect` and destructured on line 186. -/
structure EvaluationInput where
  cac : ℚ
  cfa : ℚ
  ltgp : ℚ
  early_gp_rate : ℚ
  period_unit : String
  low_cac_fraction : ℚ
  deriving DecidableEq

/-- The invariant the excluded input layer guarantees: all numeric fields are
non-negative (finiteness is implicit in the rational embedding). -/
def NonNeg (i : EvaluationInput) : Prop :=
  0 ≤ i.cac ∧ 0 ≤ i.cfa ∧ 0 ≤ i.ltgp ∧ 0 ≤ i.early_gp_rate

/-- Line 187: `let low_cac_thresh = (low_cac_fraction.max(0.0)).min(1.0) * ltgp;`. -/
def low_cac_thresh (i : EvaluationInput) : ℚ :=
  min (max i.low_cac_fraction 0) 1 * i.ltgp

/-- Line 190: `let net_outlay = (cac - cfa).max(0.0);`. -/
def net_outlay (i : EvaluationInput) : ℚ :=
  max (i.cac - i.cfa) 0

/-- Line 193: `let ratio = if cac > 0.0 { ltgp / cac } else { f64::INFINITY };`.
`none` stands for `+∞`. -/
def ratio (i : EvaluationInput) : Option ℚ :=
  if 0 < i.cac then some (i.ltgp / i.cac) else none

/-- The two CAC classification strings of lines 196-200, as an enum. -/
inductive CacLabel where
  | Low
  | High
  deriving DecidableEq

/-- The two CFA classification strings of lines 203-207, as an enum. -/
inductive CfaLabel where
  | High
  | Low
  deriving DecidableEq

/-- The four quadrant strings of lines 211-214, as an enum. -/
inductive Quadrant where
  | SelfFundingGrowth
  | CashLightEfficiency
  | DeferredCashRisk
  | CapitalIntensiveTrap
  deriving DecidableEq

/-- The six verdict strings of lines 218-234, as an enum. -/
inductive Verdict where
  | WarningSmallProfit
  | Unsustainable
  | Excellent
  | Good
  | Caution
  | Fragile
  deriving DecidableEq

/-- Lines 196-200: `let cac_label = if cac <= low_cac_thresh { ... Low ... }
else { ... High ... };`. -/
def cac_label (i : EvaluationInput) : CacLabel :=
  if i.cac ≤ low_cac_thresh i then .Low else .High

/-- Lines 203-207: `let cfa_label = if cfa >= cac * 0.5 { ... High ... }
else { ... Low ... };`. -/
def cfa_label (i : EvaluationInput) : CfaLabel :=
  if i.cac * (1/2) ≤ i.cfa then .High else .Low

/-- Lines 210-215: `let quadrant = match (cac <= low_cac_thresh, cfa >= cac * 0.5)
{ (true, true) => ..., (true, false) => ..., (false, true) => ...,
(false, false) => ... };`. -/
def quadrant (i : EvaluationInput) : Quadrant :=
  match decide (i.cac ≤ low_cac_thresh i), decide (i.cac * (1/2) ≤ i.cfa) with
  | true, true => .SelfFundingGrowth
  | true, false => .CashLightEfficiency
  | false, true => .DeferredCashRisk
  | false, false => .CapitalIntensiveTrap

/-- The test `ratio <= 3.0` opening the verdict on line 218; at `+∞` (`none`)
the IEEE comparison is false. -/
def ratio_le_three (i : EvaluationInput) : Bool :=
  match ratio i with
  | some r => decide (r ≤ 3)
  | none => false

/-- Lines 218-234: the verdict branch — `if ratio <= 3.0 { if net_outlay == 0.0
{ Warning } else { Unsustainable } } else { if net_outlay == 0.0 { Excellent }
else if cac <= low_cac_thresh { Good } else if cfa >= cac * 0.5 { Caution }
else { Fragile } }`. -/
def verdict (i : EvaluationInput) : Verdict :=
  if ratio_le_three i then
    if net_outlay i = 0 then .WarningSmallProfit else .Unsustainable
  else
    if net_outlay i = 0 then .Excellent
    else if i.cac ≤ low_cac_thresh i then .Good
    else if i.cac * (1/2) ≤ i.cfa then .Caution
    else .Fragile

/-- Line 237: `let ppd_est = if early_gp > 0.0 { Some(net_outlay / early_gp) }
else { None };`. -/
def ppd_est (i : EvaluationInput) : Option ℚ :=
  if 0 < i.early_gp_rate then some (net_outlay i / i.early_gp_rate) else none

/-- Lines 252-264: the day-equivalent printed next to the payback — present
exactly when `ppd_est` is, with the inner `match period.as_str()` table
(`"days" => value, "weeks" => value * 7.0, "months" => value * 30.0,
"years" => value * 365.0, _ => value`). -/
def payback_days_equivalent (i : EvaluationInput) : Option ℚ :=
  (ppd_est i).map fun value =>
    match i.period_unit with
    | "days" => value
    | "weeks" => value * 7
    | "months" => value * 30
    | "years" => value * 365
    | _ => value

/-- Spec-side verdict table, written from the spec's words: the test on the
ratio is phrased directly on the inputs — `ratio ≤ 3` holds exactly when the
ratio is finite (`cac > 0`) and `ltgp / cac ≤ 3`, since `+∞ ≤ 3` is false. -/
def verdict_spec (i : EvaluationInput) : Verdict :=
  if 0 < i.cac ∧ i.ltgp / i.cac ≤ 3 then
    if net_outlay i = 0 then .WarningSmallProfit else .Unsustainable
  else
    if net_outlay i = 0 then .Excellent
    else if i.cac ≤ low_cac_thresh i then .Good
    else if i.cac * (1/2) ≤ i.cfa then .Caution
    else .Fragile

/-- Spec-side quadrant: the 2x2 table keyed by the already computed labels
`(cac_label == Low, cfa_label == High)`, as the spec states it. -/
def quadrant_spec (i : EvaluationInput) : Quadrant :=
  match cac_label i, cfa_label i with
  | .Low, .High => .SelfFundingGrowth
  | .Low, .Low => .CashLightEfficiency
  | .High, .High => .DeferredCashRisk
  | .High, .Low => .CapitalIntensiveTrap

/-- Spec-side fixed multiplier table for the day conversion: days x1, weeks x7,
months x30, years x365, unrecognized unit x1. -/
def day_multiplier (unit : String) : ℚ :=
  match unit with
  | "days" => 1
  | "weeks" => 7
  | "months" => 30
  | "years" => 365
  | _ => 1

/-- C1: for every input, the verdict is decided by the two-level branch —
first on `ratio ≤ 3` (false when the ratio is `+∞`, i.e. `cac = 0`), then
refined by `net_outlay = 0`, `cac ≤ low_cac_thresh` and `cfa ≥ cac * 0.5`,
exactly as `verdict_spec` states it. -/
theorem verdict_two_level_branch (i : EvaluationInput) : verdict i = verdict_spec i := by
  unfold verdict verdict_spec ratio_le_three ratio
  by_cases h : 0 < i.cac
  · simp [h]
  · simp [h]

/-- C2: the quadrant is exactly the 2x2 table keyed by
`(cac_label = Low, cfa_label = High)`, where `cac_label` is Low iff
`cac ≤ low_cac_thresh` and `cfa_label` is High iff `cfa ≥ cac * 0.5`. -/
theorem quadrant_table (i : EvaluationInput) :
    (cac_label i = CacLabel.Low ↔ i.cac ≤ low_cac_thresh i)
    ∧ (cfa_label i = CfaLabel.High ↔ i.cac * (1/2) ≤ i.cfa)
    ∧ quadrant i = quadrant_spec i := by
  refine ⟨?_, ?_, ?_⟩
  · unfold cac_label
    split <;> simp_all
  · unfold cfa_label
    split <;> simp_all
  · unfold quadrant quadrant_spec cac_label cfa_label
    by_cases h1 : i.cac ≤ low_cac_thresh i <;> by_cases h2 : i.cac * (1/2) ≤ i.cfa
    · rw [decide_eq_true h1, decide_eq_true h2, if_pos h1, if_pos h2]
    · rw [decide_eq_true h1, decide_eq_false h2, if_pos h1, if_neg h2]
    · rw [decide_eq_false h1, decide_eq_true h2, if_neg h1, if_pos h2]
    · rw [decide_eq_false h1, decide_eq_false h2, if_neg h1, if_neg h2]

/-- Scenario A of the spec: cac 500, cfa 200, ltgp 2500, early rate 50 per
day, low-CAC fraction 0.10. -/
def scenarioA : EvaluationInput :=
  ⟨500, 200, 2500, 50, "days", 1/10⟩

/-- C3: Scenario A evaluates to threshold 250, net outlay 300, ratio 5,
High CAC, Low CFA, Capital-Intensive Trap, Fragile, payback 6 days,
day-equivalent 6. -/
theorem scenarioA_eval :
    low_cac_thresh scenarioA = 250
    ∧ net_outlay scenarioA = 300
    ∧ ratio scenarioA = some 5
    ∧ cac_label scenarioA = CacLabel.High
    ∧ cfa_label scenarioA = CfaLabel.Low
    ∧ quadrant scenarioA = Quadrant.CapitalIntensiveTrap
    ∧ verdict scenarioA = Verdict.Fragile
    ∧ ppd_est scenarioA = some 6
    ∧ payback_days_equivalent scenarioA = some 6 := by
  have t : low_cac_thresh scenarioA = 250 := by
    norm_num [low_cac_thresh, scenarioA, min_def, max_def]
  have n : net_outlay scenarioA = 300 := by
    norm_num [net_outlay, scenarioA, max_def]
  have r : ratio scenarioA = some 5 := by
    norm_num [ratio, scenarioA]
  have h1 : ¬ (scenarioA.cac ≤ low_cac_thresh scenarioA) := by
    rw [t]
    norm_num [scenarioA]
  have h2 : ¬ (scenarioA.cac * (1/2) ≤ scenarioA.cfa) := by
    norm_num [scenarioA]
  have rl : ratio_le_three scenarioA = false := by
    unfold ratio_le_three
    rw [r]
    exact decide_eq_false (by norm_num)
  have cl : cac_label scenarioA = CacLabel.High := by
    unfold cac_label
    rw [if_neg h1]
  have fl : cfa_label scenarioA = CfaLabel.Low := by
    unfold cfa_label
    rw [if_neg h2]
  have q : quadrant scenarioA = Quadrant.CapitalIntensiveTrap := by
    unfold quadrant
    rw [decide_eq_false h1, decide_eq_false h2]
  have v : verdict scenarioA = Verdict.Fragile := by
    unfold verdict
    rw [rl, n]
    norm_num [h1, h2]
  have p : ppd_est scenarioA = some 6 := by
    norm_num [ppd_est, net_outlay, scenarioA, max_def]
  have pd : payback_days_equivalent scenarioA = some 6 := by
    unfold payback_days_equivalent
    rw [p]
    rfl
  exact ⟨t, n, r, cl, fl, q, v, p, pd⟩

/-- C4: at `cac = 0` with non-negative inputs the ratio is `+∞` (`none`),
the net outlay is 0, the CAC label is Low, the `ratio ≤ 3` test is false
(routing the verdict to the `> 3` branch), and the quadrant is a function of
the CFA label alone. -/
theorem zero_cac_behaviour (i : EvaluationInput) (hnn : NonNeg i) (h0 : i.cac = 0) :
    ratio i = none
    ∧ net_outlay i = 0
    ∧ cac_label i = CacLabel.Low
    ∧ ratio_le_three i = false
    ∧ quadrant i = (if cfa_label i = CfaLabel.High then Quadrant.SelfFundingGrowth
        else Quadrant.CashLightEfficiency) := by
  obtain ⟨-, hcfa, hltgp, -⟩ := hnn
  have hthresh : 0 ≤ low_cac_thresh i := by
    unfold low_cac_thresh
    exact mul_nonneg (le_min (le_max_right _ _) zero_le_one) hltgp
  have hr : ratio i = none := by simp [ratio, h0]
  refine ⟨hr, ?_, ?_, ?_, ?_⟩
  · unfold net_outlay
    rw [h0, zero_sub]
    exact max_eq_right (neg_nonpos.mpr hcfa)
  · simp [cac_label, h0, hthresh]
  · simp [ratio_le_three, hr]
  · have d1 : decide (i.cac ≤ low_cac_thresh i) = true := by
      apply decide_eq_true
      rw [h0]
      exact hthresh
    have h2 : i.cac * (1/2) ≤ i.cfa := by
      rw [h0, zero_mul]
      exact hcfa
    have hcl : cfa_label i = CfaLabel.High := by
      unfold cfa_label
      rw [if_pos h2]
    unfold quadrant
    rw [d1, decide_eq_true h2, hcl]
    rfl

/-- C5: label comparisons are non-strict at the boundary — `cac` equal to the
threshold gives the Low CAC label, and `cfa` equal to `cac * 0.5` gives the
High CFA label. -/
theorem boundary_ties (i : EvaluationInput) :
    (i.cac = low_cac_thresh i → cac_label i = CacLabel.Low)
    ∧ (i.cfa = i.cac * (1/2) → cfa_label i = CfaLabel.High) := by
  constructor
  · intro h
    simp [cac_label, h]
  · intro h
    simp [cfa_label, h]

/-- C6: payback is present iff `early_gp_rate > 0`, in which case it equals
`net_outlay / early_gp_rate`; at `early_gp_rate = 0` both the payback and its
day-equivalent are absent, regardless of the other inputs. -/
theorem payback_presence (i : EvaluationInput) :
    ((ppd_est i).isSome ↔ 0 < i.early_gp_rate)
    ∧ (0 < i.early_gp_rate → ppd_est i = some (net_outlay i / i.early_gp_rate))
    ∧ (i.early_gp_rate = 0 → ppd_est i = none ∧ payback_days_equivalent i = none) := by
  by_cases h : 0 < i.early_gp_rate
  · refine ⟨by simp [ppd_est, h], fun _ => by simp [ppd_est, h], fun h0 => ?_⟩
    rw [h0] at h
    exact absurd h (lt_irrefl 0)
  · exact ⟨by simp [ppd_est, h], fun h1 => absurd h1 h,
      fun _ => by simp [ppd_est, payback_days_equivalent, h]⟩

/-- C7: the day-equivalent is the payback times the fixed multiplier table of
`day_multiplier` (days x1, weeks x7, months x30, years x365, anything else
x1); in particular a payback of 2 in weeks converts to 14 days. -/
theorem day_conversion (i : EvaluationInput) :
    payback_days_equivalent i = (ppd_est i).map (fun v => v * day_multiplier i.period_unit)
    ∧ (i.period_unit = "weeks" → ppd_est i = some 2 →
        payback_days_equivalent i = some 14) := by
  have key : payback_days_equivalent i
      = (ppd_est i).map (fun v => v * day_multiplier i.period_unit) := by
    unfold payback_days_equivalent day_multiplier
    cases hp : ppd_est i with
    | none => rfl
    | some v =>
      simp only [Option.map_some']
      congr 1
      split <;> ring
  refine ⟨key, fun hu hp => ?_⟩
  rw [key, hp, hu]
  norm_num [day_multiplier]

/-- C8: with every other field fixed, increasing `cfa` keeps the CFA label
High once it is High, and never increases the net outlay. -/
theorem cfa_monotone (i : EvaluationInput) (c1 c2 : ℚ) (h : c1 ≤ c2) :
    (cfa_label { i with cfa := c1 } = CfaLabel.High →
      cfa_label { i with cfa := c2 } = CfaLabel.High)
    ∧ net_outlay { i with cfa := c2 } ≤ net_outlay { i with cfa := c1 } := by
  constructor
  · intro hH
    unfold cfa_label at hH ⊢
    dsimp only at hH ⊢
    by_cases h1 : i.cac * (1/2) ≤ c1
    · rw [if_pos (h1.trans h)]
    · rw [if_neg h1] at hH
      exact absurd hH (by decide)
  · unfold net_outlay
    dsimp only
    exact max_le_max (sub_le_sub_left h _) le_rfl

/-- C9: the evaluation clamps `low_cac_fraction` into `[0, 1]` instead of
rejecting it — a fraction below 0 yields the same threshold as 0, a fraction
above 1 the same threshold as 1, and an in-range fraction yields exactly
`low_cac_fraction * ltgp`. -/
theorem low_cac_fraction_clamped (i : EvaluationInput) :
    (i.low_cac_fraction < 0 →
      low_cac_thresh i = low_cac_thresh { i with low_cac_fraction := 0 })
    ∧ (1 < i.low_cac_fraction →
      low_cac_thresh i = low_cac_thresh { i with low_cac_fraction := 1 })
    ∧ (0 ≤ i.low_cac_fraction → i.low_cac_fraction ≤ 1 →
      low_cac_thresh i = i.low_cac_fraction * i.ltgp) := by
  refine ⟨fun h => ?_, fun h => ?_, fun h0 h1 => ?_⟩
  · unfold low_cac_thresh
    dsimp only
    rw [max_eq_right h.le, max_self]
  · unfold low_cac_thresh
    dsimp only
    rw [max_eq_left (zero_le_one.trans h.le), min_eq_right h.le,
      max_eq_left zero_le_one, min_self]
  · unfold low_cac_thresh
    rw [max_eq_left h0, min_eq_left h1]

/-- C10: with non-negative inputs and a positive early rate, the payback is
present and non-negative, the day-equivalent is present, and the
day-equivalent is at least the payback (every multiplier is at least 1). -/
theorem payback_bounds (i : EvaluationInput) (hnn : NonNeg i)
    (h : 0 < i.early_gp_rate) :
    ∃ p, ppd_est i = some p ∧ 0 ≤ p
      ∧ ∃ d, payback_days_equivalent i = some d ∧ p ≤ d := by
  have hp : ppd_est i = some (net_outlay i / i.early_gp_rate) := by
    unfold ppd_est
    rw [if_pos h]
  have hpn : 0 ≤ net_outlay i / i.early_gp_rate := by
    apply div_nonneg _ h.le
    unfold net_outlay
    exact le_max_right _ _
  refine ⟨_, hp, hpn, ?_⟩
  unfold payback_days_equivalent
  rw [hp]
  refine ⟨_, rfl, ?_⟩
  split
  all_goals first
    | exact le_refl _
    | exact le_mul_of_one_le_right hpn (by norm_num)

/-- Witness input with zero CAC: cac 0, cfa 0, ltgp 500, no early rate. -/
def wZero : EvaluationInput :=
  ⟨0, 0, 500, 0, "days", 1/10⟩

/-- Witness input sitting exactly on both label boundaries: cac 100 equals the
threshold (0.10 of 1000) and cfa 50 equals half of cac. -/
def wTie : EvaluationInput :=
  ⟨100, 50, 1000, 0, "days", 1/10⟩

/-- Witness input with no early profit rate. -/
def wNoRate : EvaluationInput :=
  ⟨100, 0, 1000, 0, "days", 1/10⟩

/-- Witness input measured in weeks with a payback of exactly 2 periods. -/
def wWeeks : EvaluationInput :=
  ⟨100, 0, 1000, 50, "weeks", 1/10⟩

/-- Witness input with a low-CAC fraction below 0. -/
def wNegFrac : EvaluationInput :=
  ⟨100, 0, 1000, 0, "days", -1⟩

/-- Witness input with a positive early rate in weeks. -/
def wRate : EvaluationInput :=
  ⟨200, 0, 1000, 10, "weeks", 1/10⟩

/-- Witness for C4, at cac 0, cfa 0, ltgp 500. -/
theorem zero_cac_behaviour_witness :
    ratio wZero = none
    ∧ net_outlay wZero = 0
    ∧ cac_label wZero = CacLabel.Low
    ∧ ratio_le_three wZero = false
    ∧ quadrant wZero = (if cfa_label wZero = CfaLabel.High then Quadrant.SelfFundingGrowth
        else Quadrant.CashLightEfficiency) :=
  zero_cac_behaviour wZero (by norm_num [NonNeg, wZero]) rfl

/-- Witness for C5, at the boundary input cac 100 = threshold, cfa 50 = cac/2. -/
theorem boundary_ties_witness :
    cac_label wTie = CacLabel.Low ∧ cfa_label wTie = CfaLabel.High :=
  ⟨(boundary_ties wTie).1 (by norm_num [wTie, low_cac_thresh, min_def, max_def]),
   (boundary_ties wTie).2 (by norm_num [wTie])⟩

/-- Witness for C6, at an input with early rate 0. -/
theorem payback_presence_witness :
    ppd_est wNoRate = none ∧ payback_days_equivalent wNoRate = none :=
  (payback_presence wNoRate).2.2 rfl

/-- Witness for C7: payback 2 in weeks converts to 14 days. -/
theorem day_conversion_witness : payback_days_equivalent wWeeks = some 14 :=
  (day_conversion wWeeks).2 rfl (by norm_num [ppd_est, net_outlay, wWeeks, max_def])

/-- Witness for C8, raising cfa from 60 to 80 on a base with cac 100. -/
theorem cfa_monotone_witness :
    cfa_label { wNoRate with cfa := 80 } = CfaLabel.High
    ∧ net_outlay { wNoRate with cfa := 80 } ≤ net_outlay { wNoRate with cfa := 60 } :=
  ⟨(cfa_monotone wNoRate 60 80 (by norm_num)).1 (by norm_num [cfa_label, wNoRate]),
   (cfa_monotone wNoRate 60 80 (by norm_num)).2⟩

/-- Witness for C9, at a low-CAC fraction of -1. -/
theorem low_cac_fraction_clamped_witness :
    low_cac_thresh wNegFrac = low_cac_thresh { wNegFrac with low_cac_fraction := 0 } :=
  (low_cac_fraction_clamped wNegFrac).1 (by norm_num [wNegFrac])

/-- Witness for C10, at cac 200, early rate 10 per week. -/
theorem payback_bounds_witness :
    ∃ p, ppd_est wRate = some p ∧ 0 ≤ p
      ∧ ∃ d, payback_days_equivalent wRate = some d ∧ p ≤ d :=
  payback_bounds wRate (by norm_num [NonNeg, wRate]) (by norm_num [wRate])
